import Mathlib

/-
Shallow embedding of the SoTEG repository (SensorNode.py, SkyTemperature.py,
SoTEG.py) and proofs about its claims.

Python floats are modelled as exact numbers: the energy-store arithmetic is
stated over a general linear ordered field `K` (instantiated at ℚ, where every
operation is executable, and at ℝ inside the sample-processing loop, whose
harvesting model needs real exponentiation).  Python's dynamic typing inside
`processData` matters: the rows of `tableData` carry either `datetime`,
`timedelta` or `float` values, and operations between mismatched types raise,
so row values are embedded as a sum type `PyVal` and fallible operations return
`Except`.
-/

/-- A Python value that can appear in a data row or in `lastSamplingTime`:
a `datetime` (seconds since the epoch), a `timedelta` (seconds) or a `float`.
Exact rationals stand in for floats. -/
inductive PyVal where
  | dt (t : ℚ)
  | td (s : ℚ)
  | fl (x : ℚ)
deriving DecidableEq

/-- Python's binary `-` on the row values: `datetime - datetime` is a
`timedelta`, `datetime - timedelta` a `datetime`, `timedelta - timedelta` a
`timedelta`, `float - float` a `float`; every other combination raises
`TypeError`. -/
def pySub : PyVal → PyVal → Except String PyVal
  | .dt a, .dt b => .ok (.td (a - b))
  | .dt a, .td b => .ok (.dt (a - b))
  | .td a, .td b => .ok (.td (a - b))
  | .fl a, .fl b => .ok (.fl (a - b))
  | _, _ => .error "TypeError: unsupported operand type for -"

/-- Python's `.total_seconds()`: defined on `timedelta` only; on any other
value the attribute lookup raises `AttributeError`. -/
def totalSeconds : PyVal → Except String ℚ
  | .td s => .ok s
  | _ => .error "AttributeError: total_seconds"

/-- Python's `round` to an integer (banker's rounding: ties go to the even
integer). -/
def pyRound {K : Type} [LinearOrderedField K] [FloorRing K] (x : K) : ℤ :=
  if x - ⌊x⌋ < 1 / 2 then ⌊x⌋
  else if 1 / 2 < x - ⌊x⌋ then ⌊x⌋ + 1
  else if ⌊x⌋ % 2 = 0 then ⌊x⌋ else ⌊x⌋ + 1

namespace SensorNode

/-- SensorNode.__init__: `self.baseEnergy = 27.54` (mJ), never mutated. -/
def baseEnergy (K : Type) [LinearOrderedField K] : K := 27.54

/-- SensorNode.__init__: `self.nodeConsumption = 66.29` (mJ per packet),
never mutated. -/
def nodeConsumption (K : Type) [LinearOrderedField K] : K := 66.29

/-- SensorNode.__init__: `self.Cstore = 17` (mF), never mutated. -/
def Cstore (K : Type) [LinearOrderedField K] : K := 17

/-- SensorNode.__init__: `self.Ileakage = 0.002` (mA), never mutated. -/
def Ileakage (K : Type) [LinearOrderedField K] : K := 0.002

/-- The mutable state of a `SensorNode` instance (the fields `__init__`
initialises and the methods update). -/
structure NodeState (K : Type) where
  accEnergy : K
  totalGeneratedEnergy : K
  accEnergyPerSample : K
  lastSamplingTime : PyVal
  txPackets : ℕ

/-- The state `SensorNode.__init__` builds: all counters zero and
`lastSamplingTime = datetime('2016-04-06 21:26:27')`, 1459977987 seconds into
the POSIX epoch. -/
def initState (K : Type) [LinearOrderedField K] : NodeState K where
  accEnergy := 0
  totalGeneratedEnergy := 0
  accEnergyPerSample := 0
  lastSamplingTime := .dt 1459977987
  txPackets := 0

variable {K : Type} [LinearOrderedField K]

/-- SensorNode.updateEnergy: adds `energy` to `accEnergy`,
`totalGeneratedEnergy` and `accEnergyPerSample`. -/
def updateEnergy (s : NodeState K) (energy : K) : NodeState K :=
  { s with
    accEnergy := s.accEnergy + energy
    totalGeneratedEnergy := s.totalGeneratedEnergy + energy
    accEnergyPerSample := s.accEnergyPerSample + energy }

/-- SensorNode.updateLeakageEnergy: deducts
`((Ileakage * timeDelta) ** 2) / (2 * Cstore)` from `accEnergy`, then clamps a
non-positive result to `0`. -/
def updateLeakageEnergy (s : NodeState K) (timeDelta : K) : NodeState K :=
  let eLeakage := (Ileakage K * timeDelta) ^ 2 / (2 * Cstore K)
  let s' := { s with accEnergy := s.accEnergy - eLeakage }
  if s'.accEnergy ≤ 0 then { s' with accEnergy := 0 } else s'

/-- SensorNode.checkThresholds: `True` iff
`accEnergy - baseEnergy - nodeConsumption >= 0`. -/
def checkThresholds (s : NodeState K) : Bool :=
  if 0 ≤ s.accEnergy - baseEnergy K - nodeConsumption K then true else false

/-- SensorNode.transmitPacket: `while checkThresholds(): txPackets += 1;
accEnergy -= nodeConsumption`.  Terminates because each iteration lowers
`accEnergy` by the constant `nodeConsumption = 66.29 > 0`. -/
def transmitPacket [FloorRing K] (s : NodeState K) : NodeState K :=
  if h : checkThresholds s then
    transmitPacket { s with
      txPackets := s.txPackets + 1
      accEnergy := s.accEnergy - nodeConsumption K }
  else s
termination_by (⌊(s.accEnergy - baseEnergy K - nodeConsumption K) / nodeConsumption K⌋ + 1).toNat
decreasing_by
  simp_wf
  have hcons : (0 : K) < nodeConsumption K := by norm_num [nodeConsumption]
  have hx : (0 : K) ≤ s.accEnergy - baseEnergy K - nodeConsumption K := by
    rcases lt_or_le (s.accEnergy - baseEnergy K - nodeConsumption K) 0 with hlt | hle
    · exfalso
      unfold checkThresholds at h
      rw [if_neg (not_le.mpr hlt)] at h
      exact Bool.false_ne_true h
    · exact hle
  have hfloor : 0 ≤ ⌊(s.accEnergy - baseEnergy K - nodeConsumption K) / nodeConsumption K⌋ :=
    Int.floor_nonneg.mpr (div_nonneg hx hcons.le)
  have harg : (s.accEnergy - nodeConsumption K - baseEnergy K - nodeConsumption K) / nodeConsumption K
      = (s.accEnergy - baseEnergy K - nodeConsumption K) / nodeConsumption K - 1 := by
    field_simp
    ring
  rw [harg, Int.floor_sub_one]
  omega

/-- SensorNode.pmuModel on a float argument: `pAvg = 0.0`, overwritten with
`abs(0.0366 * dT ** 1.8830)` when `dT >= 0.625`. -/
noncomputable def pmuModel (dT : ℝ) : ℝ :=
  if dT ≥ 0.625 then |0.0366 * dT ^ (1.8830 : ℝ)| else 0

/-- SensorNode.pmuModel as called from `processData` on a row value: the
comparison `dT >= 0.625` raises `TypeError` unless `dT` is a float. -/
noncomputable def pmuModelPy : PyVal → Except String ℝ
  | .fl x => .ok (pmuModel (x : ℝ))
  | _ => .error "TypeError: ordering not supported between these types"

/-- The body of the `for`/`try` in SensorNode.processData for one `row` of
`tableData`, returning the state after the sample.  Any raise is caught by the
`except` clause, which only prints, so the state at the raise point is the
state the next sample starts from.  `row.1` is Python's `row[0]` and `row.2`
is `row[1]`.  Note the source computes `timeDelta = row[1] -
self.lastSamplingTime` — the reading field, not the `row[0]` timestamp its
docstring specifies. -/
noncomputable def processRow (s : NodeState ℝ) (row : PyVal × PyVal) : NodeState ℝ :=
  match pySub row.2 s.lastSamplingTime with
  | .error _ => s
  | .ok timeDelta =>
    match totalSeconds timeDelta with
    | .error _ => s
    | .ok secs =>
      let timeDeltaSeconds : ℤ := pyRound secs
      let s1 := { s with lastSamplingTime := row.1 }
      let s2 := if 86400 ≤ timeDeltaSeconds then { s1 with accEnergy := 0 } else s1
      let s3 := { s2 with txPackets := 0, accEnergyPerSample := 0 }
      match pmuModelPy row.2 with
      | .error _ => s3
      | .ok pAvg =>
        let s4 := updateEnergy s3 (pAvg * (timeDeltaSeconds : ℝ))
        let s5 := updateLeakageEnergy s4 (timeDeltaSeconds : ℝ)
        transmitPacket s5

/-- SensorNode.processData: folds `processRow` over `tableData` and returns
`self.txPackets` (paired here with the final state). -/
noncomputable def processData (s : NodeState ℝ) (tableData : List (PyVal × PyVal)) :
    NodeState ℝ × ℕ :=
  let final := tableData.foldl processRow s
  (final, final.txPackets)

/-- `processRow` instrumented with the observation "how many packets did this
sample transmit": the same code path as `processRow`, additionally returning
the number of `txPackets += 1` executions the sample performed — `0` on every
path that raises (a failed sample transmits nothing), and the growth of
`txPackets` across the `transmitPacket` call on the path that completes. -/
noncomputable def processRowCount (s : NodeState ℝ) (row : PyVal × PyVal) :
    NodeState ℝ × ℕ :=
  match pySub row.2 s.lastSamplingTime with
  | .error _ => (s, 0)
  | .ok timeDelta =>
    match totalSeconds timeDelta with
    | .error _ => (s, 0)
    | .ok secs =>
      let timeDeltaSeconds : ℤ := pyRound secs
      let s1 := { s with lastSamplingTime := row.1 }
      let s2 := if 86400 ≤ timeDeltaSeconds then { s1 with accEnergy := 0 } else s1
      let s3 := { s2 with txPackets := 0, accEnergyPerSample := 0 }
      match pmuModelPy row.2 with
      | .error _ => (s3, 0)
      | .ok pAvg =>
        let s4 := updateEnergy s3 (pAvg * (timeDeltaSeconds : ℝ))
        let s5 := updateLeakageEnergy s4 (timeDeltaSeconds : ℝ)
        let s6 := transmitPacket s5
        (s6, s6.txPackets - s5.txPackets)

/-- The run of `processData` with, alongside the final state, the total
number of packets transmitted across the samples of the series: the sum of
the per-sample counts of `processRowCount`. -/
noncomputable def processDataCount :
    NodeState ℝ → List (PyVal × PyVal) → NodeState ℝ × ℕ
  | s, [] => (s, 0)
  | s, row :: rest =>
    let p := processRowCount s row
    let q := processDataCount p.1 rest
    (q.1, p.2 + q.2)

end SensorNode

namespace SkyTemperature

/-- SkyTemperature.__init__: the Stefan-Boltzmann constant. -/
noncomputable def sigma : ℝ := 5.670374419e-8

/-- SkyTemperature.emissivity: Clark-Allen clear-sky emissivity with a cubic
cloud-cover correction; the source first replaces `t_dp` by `t_dp + 273.15`. -/
noncomputable def emissivity (N t_dp : ℝ) : ℝ :=
  (0.787 + 0.767 * Real.log ((t_dp + 273.15) / 273)) +
    ((0.0224 * N) - (0.0035 * N ^ 2) + (0.00028 * N ^ 3))

/-- SkyTemperature.get_temperature1: `(sky_emissivity ** 0.25) * t_air`, with
`t_air` still in degrees Celsius. -/
noncomputable def get_temperature1 (N t_air t_dp : ℝ) : ℝ :=
  emissivity N t_dp ^ (0.25 : ℝ) * t_air

/-- SkyTemperature.get_temperature2: the EnergyPlus route — `t_air` converted
to kelvin, `horizontal_IR = emissivity * sigma * t_air ** 4`, and the sky
temperature `(horizontal_IR / sigma) ** 0.25 - 273.15`. -/
noncomputable def get_temperature2 (N t_air t_dp : ℝ) : ℝ :=
  let t_airK := t_air + 273.15
  let sky_emissivity := emissivity N t_dp
  let horizontal_IR := sky_emissivity * sigma * t_airK ^ (4 : ℕ)
  (horizontal_IR / sigma) ^ (0.25 : ℝ) - 273.15

end SkyTemperature

/-- The fields a `SoTEGModel` instance carries: `h_air` (assigned `0` by
`__init__` and reassigned by every `getRadiatorTemperature` call) and the
physical constants. -/
structure SoTEGModel where
  h_air : ℝ
  sigma : ℝ
  emissivity : ℝ
  absorptivity : ℝ
  sCoefficient : ℝ
  tegElectricalR : ℝ
  R_teg : ℝ
  R_rod : ℝ
  R_adhesive : ℝ
  R_plate : ℝ
  R_radiator : ℝ
  A_radiator : ℝ
  R_total : ℝ

/-- SoTEGModel.__init__: the constants as written, with
`R_total = R_rod + R_plate + R_teg + R_radiator + R_adhesive`. -/
noncomputable def SoTEGModel.init : SoTEGModel where
  h_air := 0
  sigma := 5.670374419e-8
  emissivity := 0.92
  absorptivity := 0.92
  sCoefficient := 41.7
  tegElectricalR := 3.8
  R_teg := 1.56
  R_rod := 0.87
  R_adhesive := 0.5
  R_plate := 0.0008
  R_radiator := 0.0001445
  A_radiator := 0.00865
  R_total := 0.87 + 0.0008 + 1.56 + 0.0001445 + 0.5

/-- SoTEGModel.getRadiatorTemperature: converts the three temperatures to
kelvin, assigns `self.h_air = 6.5 + 2.8 * wind_speed` (a field write on the
instance — the returned pair carries the updated instance), picks the
irradiance factor, builds the quartic coefficients `m` and `c` and evaluates
the closed-form root, returning `temp_radiator - 273.15`.  Python float
exponentiation `** (p/q)` is embedded as real `rpow` (the source's
`isinstance(temp_radiator, complex)` abort concerns Python complex values,
which the real-valued embedding does not produce). -/
noncomputable def SoTEGModel.getRadiatorTemperature (M : SoTEGModel)
    (t_air t_soil I_solar wind_speed theta t_sky : ℝ) : SoTEGModel × ℝ :=
  let t_airK := t_air + 273.15
  let t_soilK := t_soil + 273.15
  let t_skyK := t_sky + 273.15
  let M' := { M with h_air := 6.5 + 2.8 * wind_speed }
  let s_lambda : ℝ := if I_solar > 0.0 then Real.cos (theta * Real.pi / 180) else 1.0
  let m := (1 / (M'.sigma * M'.emissivity)) * (M'.h_air + 1 / (M'.A_radiator * M'.R_total))
  let c := t_skyK ^ (4 : ℕ) +
    (M'.h_air * t_airK) / (M'.sigma * M'.emissivity) +
    (M'.absorptivity * s_lambda * I_solar) / (M'.sigma * M'.emissivity) +
    t_soilK / (M'.sigma * M'.emissivity * M'.A_radiator * M'.R_total)
  let temp_radiator :=
    (3 : ℝ) ^ ((1 : ℝ) / 2) * (4 * (3 : ℝ) ^ ((1 : ℝ) / 2) * c *
        (3 * (((3 : ℝ) ^ ((1 : ℝ) / 2) * (256 * c ^ (3 : ℕ) + 27 * m ^ (4 : ℕ)) ^ ((1 : ℝ) / 2)) / 18
            + m ^ (2 : ℕ) / 2) ^ ((2 : ℝ) / 3) - 4 * c) ^ ((1 : ℝ) / 2)
      - 3 * (3 : ℝ) ^ ((1 : ℝ) / 2) *
        (3 * (((3 : ℝ) ^ ((1 : ℝ) / 2) * (256 * c ^ (3 : ℕ) + 27 * m ^ (4 : ℕ)) ^ ((1 : ℝ) / 2)) / 18
            + m ^ (2 : ℕ) / 2) ^ ((2 : ℝ) / 3) - 4 * c) ^ ((1 : ℝ) / 2) *
        (((3 : ℝ) ^ ((1 : ℝ) / 2) * (256 * c ^ (3 : ℕ) + 27 * m ^ (4 : ℕ)) ^ ((1 : ℝ) / 2)) / 18
            + m ^ (2 : ℕ) / 2) ^ ((2 : ℝ) / 3)
      + (3 : ℝ) ^ ((1 : ℝ) / 2) * (6 : ℝ) ^ ((1 : ℝ) / 2) * m *
        ((3 : ℝ) ^ ((1 : ℝ) / 2) * (256 * c ^ (3 : ℕ) + 27 * m ^ (4 : ℕ)) ^ ((1 : ℝ) / 2)
            + 9 * m ^ (2 : ℕ)) ^ ((1 : ℝ) / 2)) ^ ((1 : ℝ) / 2) /
      (6 * (9 * (((3 : ℝ) ^ ((1 : ℝ) / 2) * (256 * c ^ (3 : ℕ) + 27 * m ^ (4 : ℕ)) ^ ((1 : ℝ) / 2)) / 18
            + m ^ (2 : ℕ) / 2) ^ ((2 : ℝ) / 3) - 12 * c) ^ ((1 : ℝ) / 4) *
        (((3 : ℝ) ^ ((1 : ℝ) / 2) * (256 * c ^ (3 : ℕ) + 27 * m ^ (4 : ℕ)) ^ ((1 : ℝ) / 2)) / 18
            + m ^ (2 : ℕ) / 2) ^ ((1 : ℝ) / 6))
    - ((3 : ℝ) ^ ((1 : ℝ) / 2) *
        (3 * (((3 : ℝ) ^ ((1 : ℝ) / 2) * (256 * c ^ (3 : ℕ) + 27 * m ^ (4 : ℕ)) ^ ((1 : ℝ) / 2)) / 18
            + m ^ (2 : ℕ) / 2) ^ ((2 : ℝ) / 3) - 4 * c) ^ ((1 : ℝ) / 2)) /
      (6 * (((3 : ℝ) ^ ((1 : ℝ) / 2) * (256 * c ^ (3 : ℕ) + 27 * m ^ (4 : ℕ)) ^ ((1 : ℝ) / 2)) / 18
            + m ^ (2 : ℕ) / 2) ^ ((1 : ℝ) / 6))
  (M', temp_radiator - 273.15)

/-- SoTEGModel.getDeltaT: `(t_radiator - t_soil) * R_teg / R_total`; reads the
instance, writes nothing. -/
noncomputable def SoTEGModel.getDeltaT (M : SoTEGModel) (t_radiator t_soil : ℝ) : ℝ :=
  (t_radiator - t_soil) * M.R_teg / M.R_total

/-- Python's `round(x, 3)` (banker's rounding at the third decimal, on the
embedded exact values). -/
noncomputable def pyRound3 (x : ℝ) : ℝ :=
  (pyRound (x * 1000) : ℝ) / 1000

/-- SoTEGModel.getTEGMatchedLoadPower:
`round(sCoefficient² * dt² / (4 * tegElectricalR * 1000), 3)`; reads the
instance, writes nothing. -/
noncomputable def SoTEGModel.getTEGMatchedLoadPower (M : SoTEGModel) (dt : ℝ) : ℝ :=
  pyRound3 (M.sCoefficient * M.sCoefficient * (dt * dt) / (4 * M.tegElectricalR * 1000))

open SensorNode SkyTemperature

section StoreLemmas

variable {K : Type} [LinearOrderedField K]

lemma checkThresholds_eq_true_iff (s : NodeState K) :
    checkThresholds s = true ↔ 0 ≤ s.accEnergy - baseEnergy K - nodeConsumption K := by
  unfold checkThresholds
  split <;> simp_all

lemma checkThresholds_eq_false_iff (s : NodeState K) :
    checkThresholds s = false ↔ s.accEnergy - baseEnergy K - nodeConsumption K < 0 := by
  rw [← not_le, ← checkThresholds_eq_true_iff]
  cases checkThresholds s <;> simp

lemma transmitPacket_accounting [FloorRing K] (s : NodeState K) :
    (transmitPacket s).accEnergy - baseEnergy K - nodeConsumption K < 0 ∧
    (0 ≤ s.accEnergy → 0 ≤ (transmitPacket s).accEnergy) ∧
    ∃ k : ℕ, (transmitPacket s).txPackets = s.txPackets + k ∧
      (transmitPacket s).accEnergy + (k : K) * nodeConsumption K = s.accEnergy := by
  induction s using transmitPacket.induct with
  | case1 s h ih =>
    rw [transmitPacket, dif_pos h]
    obtain ⟨h1, h2, k, hk1, hk2⟩ := ih
    have hth := (checkThresholds_eq_true_iff s).mp h
    have hbase : (0 : K) ≤ baseEnergy K := by norm_num [baseEnergy]
    refine ⟨h1, fun _ => h2 (by simp only; linarith), k + 1, ?_, ?_⟩
    · simp only at hk1
      omega
    · simp only at hk2
      push_cast
      linarith
  | case2 s h =>
    rw [transmitPacket, dif_neg h]
    have hlt := (checkThresholds_eq_false_iff s).mp (Bool.not_eq_true _ ▸ h)
    exact ⟨hlt, fun hs => hs, 0, by omega, by push_cast; ring⟩

end StoreLemmas

/-- C5: SensorNode.transmitPacket (a total function of the embedding, hence
terminating) leaves `accEnergy - baseEnergy - nodeConsumption < 0` — no
further packet could be sent — and the number of packets it sends accounts
exactly for the energy drained (`nodeConsumption` each), so it is bounded by
`accEnergy / nodeConsumption`. -/
theorem transmitPacket_terminates_and_bounded (K : Type) [LinearOrderedField K]
    [FloorRing K] (s : NodeState K) (h : 0 ≤ s.accEnergy) :
    (transmitPacket s).accEnergy - baseEnergy K - nodeConsumption K < 0 ∧
    checkThresholds (transmitPacket s) = false ∧
    (transmitPacket s).accEnergy = s.accEnergy
      - (((transmitPacket s).txPackets - s.txPackets : ℕ) : K) * nodeConsumption K ∧
    (((transmitPacket s).txPackets - s.txPackets : ℕ) : K) ≤ s.accEnergy / nodeConsumption K := by
  obtain ⟨h1, h2, k, hk1, hk2⟩ := transmitPacket_accounting s
  have hcons : (0 : K) < nodeConsumption K := by norm_num [nodeConsumption]
  have hdk : (transmitPacket s).txPackets - s.txPackets = k := by omega
  have hacc : 0 ≤ (transmitPacket s).accEnergy := h2 h
  refine ⟨h1, (checkThresholds_eq_false_iff _).mpr h1, ?_, ?_⟩
  · rw [hdk]
    linarith
  · rw [hdk, le_div_iff₀ hcons]
    linarith

/-- C5 witness: the specification instantiated at ℚ on a buffer holding
100 mJ. -/
theorem transmitPacket_terminates_and_bounded_witness :
    (0 : ℚ) ≤ ({ initState ℚ with accEnergy := 100 } : NodeState ℚ).accEnergy ∧
    ((transmitPacket { initState ℚ with accEnergy := 100 }).accEnergy
        - baseEnergy ℚ - nodeConsumption ℚ < 0 ∧
      checkThresholds (transmitPacket { initState ℚ with accEnergy := 100 }) = false ∧
      (transmitPacket ({ initState ℚ with accEnergy := 100 } : NodeState ℚ)).accEnergy
        = ({ initState ℚ with accEnergy := 100 } : NodeState ℚ).accEnergy
          - (((transmitPacket ({ initState ℚ with accEnergy := 100 } : NodeState ℚ)).txPackets
              - ({ initState ℚ with accEnergy := 100 } : NodeState ℚ).txPackets : ℕ) : ℚ)
            * nodeConsumption ℚ ∧
      (((transmitPacket ({ initState ℚ with accEnergy := 100 } : NodeState ℚ)).txPackets
          - ({ initState ℚ with accEnergy := 100 } : NodeState ℚ).txPackets : ℕ) : ℚ)
        ≤ ({ initState ℚ with accEnergy := 100 } : NodeState ℚ).accEnergy / nodeConsumption ℚ) := by
  have h : (0 : ℚ) ≤ ({ initState ℚ with accEnergy := 100 } : NodeState ℚ).accEnergy := by
    norm_num
  exact ⟨h, transmitPacket_terminates_and_bounded ℚ _ h⟩

/-- C6: `accEnergy` stays non-negative across the store operations — adding a
non-negative harvest, deducting leakage for any elapsed time (the clamp), and
the transmit loop (which only subtracts while the threshold allows). -/
theorem accEnergy_nonneg_invariant (K : Type) [LinearOrderedField K] [FloorRing K]
    (s : NodeState K) (e t : K) (hs : 0 ≤ s.accEnergy) (he : 0 ≤ e) :
    0 ≤ (updateEnergy s e).accEnergy ∧
    0 ≤ (updateLeakageEnergy s t).accEnergy ∧
    0 ≤ (transmitPacket s).accEnergy := by
  refine ⟨add_nonneg hs he, ?_, (transmitPacket_accounting s).2.1 hs⟩
  unfold updateLeakageEnergy
  dsimp only
  split
  · simp
  · next hcl =>
    simp only at hcl ⊢
    linarith [not_le.mp hcl]

/-- C6 witness: the invariant instantiated at ℚ with a 100 mJ buffer, a 5 mJ
harvest and a 3 s elapsed time. -/
theorem accEnergy_nonneg_invariant_witness :
    (0 : ℚ) ≤ ({ initState ℚ with accEnergy := 100 } : NodeState ℚ).accEnergy ∧
    (0 : ℚ) ≤ 5 ∧
    (0 ≤ (updateEnergy ({ initState ℚ with accEnergy := 100 } : NodeState ℚ) 5).accEnergy ∧
      0 ≤ (updateLeakageEnergy ({ initState ℚ with accEnergy := 100 } : NodeState ℚ) 3).accEnergy ∧
      0 ≤ (transmitPacket ({ initState ℚ with accEnergy := 100 } : NodeState ℚ)).accEnergy) := by
  have hs : (0 : ℚ) ≤ ({ initState ℚ with accEnergy := 100 } : NodeState ℚ).accEnergy := by
    norm_num
  have he : (0 : ℚ) ≤ 5 := by norm_num
  exact ⟨hs, he, accEnergy_nonneg_invariant ℚ _ 5 3 hs he⟩

/-- C10: the leakage deduction `((Ileakage * t) ** 2) / (2 * Cstore)` depends
only on `t ** 2`, so `updateLeakageEnergy` treats `t` and `-t` identically,
the deducted amount is non-negative, and the buffer never gains energy from
the call (its new level is at most `max accEnergy 0`). -/
theorem updateLeakageEnergy_even_in_time (K : Type) [LinearOrderedField K]
    (s : NodeState K) (t : K) :
    updateLeakageEnergy s t = updateLeakageEnergy s (-t) ∧
    0 ≤ (Ileakage K * t) ^ 2 / (2 * Cstore K) ∧
    (updateLeakageEnergy s t).accEnergy ≤ max s.accEnergy 0 := by
  have hsq : (Ileakage K * -t) ^ 2 = (Ileakage K * t) ^ 2 := by ring
  have hC : (0 : K) < 2 * Cstore K := by norm_num [Cstore]
  have hleak : 0 ≤ (Ileakage K * t) ^ 2 / (2 * Cstore K) :=
    div_nonneg (sq_nonneg _) hC.le
  refine ⟨by simp only [updateLeakageEnergy, hsq], hleak, ?_⟩
  unfold updateLeakageEnergy
  dsimp only
  split
  · simp
  · next hcl =>
    simp only at hcl ⊢
    have := not_le.mp hcl
    have hle : s.accEnergy - (Ileakage K * t) ^ 2 / (2 * Cstore K) ≤ s.accEnergy := by
      linarith
    exact hle.trans (le_max_left _ _)

/-- C9: SensorNode.pmuModel is non-negative everywhere, returns 0 below the
0.625 °C dead-zone threshold, and the power law `0.0366 * dT ** 1.8830` at or
above it. -/
theorem pmuModel_dead_zone_power_law (dT : ℝ) :
    0 ≤ pmuModel dT ∧
    pmuModel dT = if 0.625 ≤ dT then 0.0366 * dT ^ (1.8830 : ℝ) else 0 := by
  unfold pmuModel
  rcases le_or_lt 0.625 dT with h | h
  · have hpos : (0 : ℝ) < dT := by linarith
    have hpow : (0 : ℝ) < dT ^ (1.8830 : ℝ) := Real.rpow_pos_of_pos hpos _
    rw [if_pos h, if_pos h, abs_of_nonneg (by positivity)]
    constructor
    · positivity
    · rfl
  · rw [if_neg (not_le.mpr h), if_neg (not_le.mpr h)]
    exact ⟨le_refl 0, rfl⟩

section ProcessLemmas

/-- Shared helper: on a well-formed row — `row[0]` anything, `row[1]` a float
reading — with a `datetime` watermark, the very first statement of the loop
body (`row[1] - self.lastSamplingTime`) raises `TypeError`, so the sample is
abandoned before any state field is written. -/
lemma processRow_float_reading_raises (s : NodeState ℝ) (v : PyVal) (x t : ℚ)
    (h : s.lastSamplingTime = PyVal.dt t) :
    processRow s (v, PyVal.fl x) = s := by
  unfold processRow
  rw [h]
  rfl

end ProcessLemmas

/-- C1 (code bug): with the initial watermark `datetime('2016-04-06
21:26:27')` and a well-formed sample one hour later carrying the reading
`5.0`, the elapsed-time computation `row[1] - self.lastSamplingTime` subtracts
the watermark from the *reading* field and raises `TypeError`, although the
timestamp field would have given 3600 s; the watermark is never advanced and
the sample is dropped. -/
theorem processRow_elapsed_from_reading_field :
    pySub (PyVal.fl 5) (initState ℝ).lastSamplingTime
      = Except.error "TypeError: unsupported operand type for -" ∧
    pySub (PyVal.dt (1459977987 + 3600)) (initState ℝ).lastSamplingTime
      = Except.ok (PyVal.td 3600) ∧
    processRow (initState ℝ) (PyVal.dt (1459977987 + 3600), PyVal.fl 5) = initState ℝ := by
  refine ⟨rfl, ?_, processRow_float_reading_raises _ _ 5 1459977987 rfl⟩
  simp [pySub, initState]

/-- Shared helper: the instrumented step is the same computation as
`processRow` and its per-sample transmit count is `0` on every input — a
sample can reach `transmitPacket` only past both the subtraction at line 122
(which demands a reading subtractable from the watermark) and the `pmuModel`
comparison (which demands a float reading), and no row value satisfies both —
and a step leaves `txPackets` either reset to `0` or untouched. -/
lemma processRow_no_transmission (s : NodeState ℝ) (row : PyVal × PyVal) :
    (processRowCount s row).1 = processRow s row ∧
    (processRowCount s row).2 = 0 ∧
    ((processRow s row).txPackets = 0 ∨ (processRow s row).txPackets = s.txPackets) := by
  obtain ⟨v, w⟩ := row
  rcases hL : s.lastSamplingTime with t | t | t <;> rcases w with a | a | a <;>
    simp [processRow, processRowCount, pySub, totalSeconds, pmuModelPy, hL]

/-- Shared helper: processing one sample and then the rest is processing the
whole series. -/
lemma processData_cons (s : NodeState ℝ) (r : PyVal × PyVal)
    (rest : List (PyVal × PyVal)) :
    processData s (r :: rest) = processData (processRow s r) rest := by
  simp [processData]

/-- C2: starting a run with `txPackets = 0` (as `__init__` and `resetSystem`
both arrange), the value `processData` returns equals the total number of
packets transmitted across the successfully processed samples of the series
(`processDataCount`: failed samples contribute `0`, each completed sample
contributes its `transmitPacket` growth), and the instrumented run is the
same run.  On this code the aggregate is degenerate — no sample can ever
reach `transmitPacket` (see `processRow_no_transmission`) — so both sides
are `0`, and the equality holds on every series. -/
theorem processData_aggregates_transmitted (s : NodeState ℝ)
    (rows : List (PyVal × PyVal)) (hs : s.txPackets = 0) :
    (processData s rows).2 = (processDataCount s rows).2 ∧
    (processDataCount s rows).1 = (processData s rows).1 := by
  induction rows generalizing s with
  | nil => exact ⟨hs, rfl⟩
  | cons r rest ih =>
    obtain ⟨h1, h2, h3⟩ := processRow_no_transmission s r
    have htx : (processRow s r).txPackets = 0 := by
      rcases h3 with h | h
      · exact h
      · rw [h, hs]
    obtain ⟨ih1, ih2⟩ := ih (processRow s r) htx
    rw [processData_cons]
    constructor
    · rw [ih1, processDataCount]
      simp [h1, h2]
    · rw [processDataCount]
      simp [h1, ih2]

/-- C2 witness: a two-sample series (one well-formed sample, one with the
fields swapped) from the initial state. -/
theorem processData_aggregates_transmitted_witness :
    (initState ℝ).txPackets = 0 ∧
    ((processData (initState ℝ)
          [(PyVal.dt 1459981587, PyVal.fl 5), (PyVal.fl 2, PyVal.dt 1459985187)]).2
        = (processDataCount (initState ℝ)
          [(PyVal.dt 1459981587, PyVal.fl 5), (PyVal.fl 2, PyVal.dt 1459985187)]).2 ∧
      (processDataCount (initState ℝ)
          [(PyVal.dt 1459981587, PyVal.fl 5), (PyVal.fl 2, PyVal.dt 1459985187)]).1
        = (processData (initState ℝ)
          [(PyVal.dt 1459981587, PyVal.fl 5), (PyVal.fl 2, PyVal.dt 1459985187)]).1) :=
  ⟨rfl, processData_aggregates_transmitted (initState ℝ)
    [(PyVal.dt 1459981587, PyVal.fl 5), (PyVal.fl 2, PyVal.dt 1459985187)] rfl⟩

/-- C4 counterexample: a malformed row whose reading field holds a `datetime`
two days past the watermark and whose timestamp field holds a float.  The loop
body gets past the subtraction, advances the watermark to `row[0] = 7.0`,
resets `accEnergy` (the two-day gap branch) and the per-sample counters, and
only then raises `TypeError` inside `pmuModel` — leaving the state mutated,
not as it was before the sample. -/
theorem processRow_exception_mutates_state :
    processRow ({ initState ℝ with accEnergy := 100 })
        (PyVal.fl 7, PyVal.dt (1459977987 + 172800))
      ≠ { initState ℝ with accEnergy := 100 } := by
  intro hEq
  have hlast := congrArg NodeState.lastSamplingTime hEq
  rw [show processRow ({ initState ℝ with accEnergy := 100 })
      (PyVal.fl 7, PyVal.dt (1459977987 + 172800))
      = { accEnergy := 0, totalGeneratedEnergy := 0, accEnergyPerSample := 0,
          lastSamplingTime := PyVal.fl 7, txPackets := 0 } from ?_] at hlast
  · simp [initState] at hlast
  · unfold processRow
    norm_num [pySub, totalSeconds, pmuModelPy, pyRound, initState]

/-- C4 (amended): for a *well-formed* sample — float reading, `datetime`
watermark — the exception is raised by the loop body's first statement, so
the failed sample leaves the whole state exactly as it was, and `processData`
carries on with the remaining samples as if the failed one were absent. -/
theorem processRow_wellformed_exception_atomic (s : NodeState ℝ) (v : PyVal)
    (x t : ℚ) (rest : List (PyVal × PyVal)) (h : s.lastSamplingTime = PyVal.dt t) :
    processRow s (v, PyVal.fl x) = s ∧
    processData s ((v, PyVal.fl x) :: rest) = processData s rest := by
  have h1 := processRow_float_reading_raises s v x t h
  exact ⟨h1, by simp [processData, h1]⟩

/-- C4 witness: the amended statement at a concrete failed sample. -/
theorem processRow_wellformed_exception_atomic_witness :
    processRow (initState ℝ) (PyVal.dt 99, PyVal.fl 3) = initState ℝ ∧
    processData (initState ℝ) [(PyVal.dt 99, PyVal.fl 3)] = processData (initState ℝ) [] :=
  processRow_wellformed_exception_atomic (initState ℝ) (PyVal.dt 99) 3 1459977987 [] rfl

/-- C7 (code bug): a well-formed sample whose timestamp lies two full days
(172800 s ≥ 86400 s) past the watermark should reset `accEnergy` to 0 before
harvesting, but the `TypeError` at the elapsed-time subtraction aborts the
sample first: a 100 mJ buffer survives untouched and the gap reset never
runs. -/
theorem processRow_gap_reset_never_triggers :
    pySub (PyVal.dt (1459977987 + 172800))
        ({ initState ℝ with accEnergy := 100 } : NodeState ℝ).lastSamplingTime
      = Except.ok (PyVal.td 172800) ∧
    processRow ({ initState ℝ with accEnergy := 100 })
        (PyVal.dt (1459977987 + 172800), PyVal.fl 0)
      = { initState ℝ with accEnergy := 100 } := by
  refine ⟨?_, processRow_float_reading_raises _ _ 0 1459977987 rfl⟩
  simp [pySub, initState]

section SkyLemmas

lemma sigma_ne_zero : sigma ≠ 0 := by
  norm_num [sigma]

/-- Shared helper: the EnergyPlus route simplifies to the emissivity-to-the-
quarter relation applied to the *kelvin* air temperature, converted back. -/
lemma get_temperature2_eq (N t_air t_dp : ℝ) (h1 : 0 ≤ emissivity N t_dp)
    (h2 : 0 ≤ t_air + 273.15) :
    get_temperature2 N t_air t_dp
      = emissivity N t_dp ^ (0.25 : ℝ) * (t_air + 273.15) - 273.15 := by
  unfold get_temperature2
  dsimp only
  have key : emissivity N t_dp * sigma * (t_air + 273.15) ^ (4 : ℕ) / sigma
      = emissivity N t_dp * (t_air + 273.15) ^ (4 : ℕ) := by
    rw [mul_comm (emissivity N t_dp) sigma, mul_assoc,
      mul_div_cancel_left₀ _ sigma_ne_zero]
  rw [key, Real.mul_rpow h1 (by positivity)]
  have hpow : (((t_air + 273.15) ^ (4 : ℕ) : ℝ)) ^ (0.25 : ℝ) = t_air + 273.15 := by
    rw [← Real.rpow_natCast (t_air + 273.15) 4, ← Real.rpow_mul h2]
    norm_num
  rw [hpow]

lemma emissivity_zero_bounds : 0 ≤ emissivity 0 0 ∧ emissivity 0 0 < 1 := by
  have hlog0 : 0 ≤ Real.log (((0 : ℝ) + 273.15) / 273) :=
    Real.log_nonneg (by norm_num)
  have hlog1 : Real.log (((0 : ℝ) + 273.15) / 273) < ((0 : ℝ) + 273.15) / 273 - 1 :=
    Real.log_lt_sub_one_of_pos (by norm_num) (by norm_num)
  unfold emissivity
  constructor
  · nlinarith
  · nlinarith

end SkyLemmas

/-- C3 counterexample: at `N = 0`, `t_air = 0 °C`, `t_dp = 0 °C` the two
derivations disagree — `get_temperature1` yields `0` (it multiplies the
Celsius air temperature) while `get_temperature2` yields
`emissivity^0.25 · 273.15 - 273.15 < 0` (it works in kelvin). -/
theorem get_temperature_methods_differ :
    get_temperature1 0 0 0 ≠ get_temperature2 0 0 0 := by
  obtain ⟨he0, he1⟩ := emissivity_zero_bounds
  have ht2 : get_temperature2 0 0 0 = emissivity 0 0 ^ (0.25 : ℝ) * ((0 : ℝ) + 273.15) - 273.15 :=
    get_temperature2_eq 0 0 0 he0 (by norm_num)
  have ht1 : get_temperature1 0 0 0 = 0 := by
    unfold get_temperature1
    ring
  have hrpow : emissivity 0 0 ^ (0.25 : ℝ) < 1 :=
    Real.rpow_lt_one he0 he1 (by norm_num)
  have : get_temperature2 0 0 0 < get_temperature1 0 0 0 := by
    rw [ht1, ht2]
    nlinarith
  exact ne_of_gt this

/-- C3 (amended): the two sky-temperature derivations are not interchangeable:
`get_temperature2` applies `emissivity^0.25` to the kelvin air temperature and
converts back, `get_temperature1` applies it to the Celsius value directly, so
their difference is the constant `(emissivity^0.25 - 1) * 273.15` — zero
exactly when the emissivity is 1. -/
theorem get_temperature_methods_kelvin_offset (N t_air t_dp : ℝ)
    (h1 : 0 ≤ emissivity N t_dp) (h2 : 0 ≤ t_air + 273.15) :
    get_temperature2 N t_air t_dp
        = emissivity N t_dp ^ (0.25 : ℝ) * (t_air + 273.15) - 273.15 ∧
    get_temperature1 N t_air t_dp = emissivity N t_dp ^ (0.25 : ℝ) * t_air ∧
    get_temperature2 N t_air t_dp - get_temperature1 N t_air t_dp
        = (emissivity N t_dp ^ (0.25 : ℝ) - 1) * 273.15 := by
  have hk := get_temperature2_eq N t_air t_dp h1 h2
  refine ⟨hk, rfl, ?_⟩
  rw [hk]
  unfold get_temperature1
  ring

/-- C3 witness: the kelvin-offset relation at `N = 0`, `t_air = 0`,
`t_dp = 0`. -/
theorem get_temperature_methods_kelvin_offset_witness :
    0 ≤ emissivity 0 0 ∧ (0 : ℝ) ≤ 0 + 273.15 ∧
    (get_temperature2 0 0 0 = emissivity 0 0 ^ (0.25 : ℝ) * ((0 : ℝ) + 273.15) - 273.15 ∧
      get_temperature1 0 0 0 = emissivity 0 0 ^ (0.25 : ℝ) * 0 ∧
      get_temperature2 0 0 0 - get_temperature1 0 0 0
        = (emissivity 0 0 ^ (0.25 : ℝ) - 1) * 273.15) := by
  have h1 : 0 ≤ emissivity 0 0 := emissivity_zero_bounds.1
  have h2 : (0 : ℝ) ≤ 0 + 273.15 := by norm_num
  exact ⟨h1, h2, get_temperature_methods_kelvin_offset 0 0 0 h1 h2⟩

/-- C8 counterexample: on the freshly constructed model (`h_air = 0`), one
call to `getRadiatorTemperature` with `wind_speed = 2` rewrites the instance
field `h_air` to `6.5 + 2.8 · 2 = 12.1` — the instance is not left
unchanged. -/
theorem getRadiatorTemperature_mutates_h_air :
    ((SoTEGModel.init.getRadiatorTemperature 25 20 200 2 0 0).1).h_air
      ≠ SoTEGModel.init.h_air := by
  have hL : ((SoTEGModel.init.getRadiatorTemperature 25 20 200 2 0 0).1).h_air
      = 6.5 + 2.8 * 2 := rfl
  have hR : SoTEGModel.init.h_air = 0 := rfl
  rw [hL, hR]
  norm_num

/-- C8 (amended): `getRadiatorTemperature` overwrites exactly the `h_air`
field (with `6.5 + 2.8 · wind_speed`, recomputed from the argument before any
read), and every other field is untouched; hence a repeated call with equal
inputs returns the identical instance-and-result pair — results do not depend
on call history.  `getDeltaT` and `getTEGMatchedLoadPower` only read the
instance. -/
theorem getRadiatorTemperature_frame (M : SoTEGModel)
    (t_air t_soil I_solar wind_speed theta t_sky : ℝ) :
    (M.getRadiatorTemperature t_air t_soil I_solar wind_speed theta t_sky).1
        = { M with h_air := 6.5 + 2.8 * wind_speed } ∧
    ((M.getRadiatorTemperature t_air t_soil I_solar wind_speed theta t_sky).1).getRadiatorTemperature
          t_air t_soil I_solar wind_speed theta t_sky
        = M.getRadiatorTemperature t_air t_soil I_solar wind_speed theta t_sky :=
  ⟨rfl, rfl⟩
